import Mathlib

/-!
A shallow embedding of the `rocketchat` Python client library
(`rocketchat/rocketchat.py`, `rocketchat/apipath.py`, `rocketchat/errors.py`)
together with theorems settling the specification claims.

The repository holds two variants of the endpoint dispatcher:

* `rocketchat.py` defines `RocketChat` (the session: `url`, `user_id`,
  `auth_token`, `login`, `auth_header`) and an inner descriptor class
  `APIPath` whose `__init__` discards its `auth` and `api_root` parameters
  and whose `_url` reads `self._api.api_v1_path`, an attribute that is never
  assigned anywhere on `RocketChat` (so reading it raises `AttributeError`).
* `apipath.py` defines the completed `APIPath`, which stores `_auth` and
  `_api_root`, composes the URL from them, and attaches auth headers
  conditionally.

Both variants are embedded below.  Request-issuing behaviour is settled
against the completed `apipath.py` dispatcher (the only variant that can
issue a request at all); the session and the descriptor-propagation
mechanism exist only in `rocketchat.py` and are embedded from there,
defects included.
-/

/-- Decoded JSON values, as produced by `response.json()`.  Objects are
association lists of key/value pairs with distinct keys. -/
inductive Json where
  | null : Json
  | bool : Bool → Json
  | num : Int → Json
  | str : String → Json
  | obj : List (String × Json) → Json

namespace Json

/-- Python `d[k]` / `k in d` support: look a key up in a JSON object.
Returns `none` when the value is not an object or the key is absent. -/
def lookup (j : Json) (k : String) : Option Json :=
  match j with
  | .obj kvs => kvs.lookup k
  | _ => none

/-- Python equality between a decoded JSON value and a string literal
(`j["status"] != "success"`): true exactly when the value is that string. -/
def eqStr (j : Json) (s : String) : Bool :=
  match j with
  | .str t => t == s
  | _ => false

end Json

/-- The exceptions the embedded code can raise.  Constructors mirror what the
Python source raises at each site: `valueError` for
`raise ValueError("Not a valid endpoint: ...")` (apipath.py line 65),
`indexError` for the unguarded `args[0]` (apipath.py line 76),
`keyError` for an unguarded `result[k]` dictionary lookup,
`attributeError` for reading an attribute that was never assigned,
`exceptionMsg` for `raise Exception(j["message"])` (rocketchat.py line 402),
and `rocketChatError` for `errors.py` `RocketChatError(errorType, error)`.
`jsonDecodeError` models the re-raised decode failure of `r.json()`.
`malformedResponse` is not raised by any code in the repository: it embeds
the MalformedResponseError of the specification error taxonomy, for
comparison with what the code actually raises. -/
inductive PyError where
  | valueError : String → PyError
  | indexError : PyError
  | keyError : String → PyError
  | attributeError : String → PyError
  | exceptionMsg : Json → PyError
  | rocketChatError : Json → Json → PyError
  | jsonDecodeError : PyError
  | malformedResponse : Nat → String → PyError

/-- True exactly on the specification-taxonomy MalformedResponseError. -/
def PyError.isMalformedResponse : PyError → Bool
  | .malformedResponse _ _ => true
  | _ => false

/-- The session state of `RocketChat` (rocketchat.py lines 382-385):
`self.url`, `self.user_id`, `self.auth_token`.  The id and token start as
`None` and are only ever assigned decoded JSON values by `login`. -/
structure RocketChat where
  url : String
  user_id : Option Json := none
  auth_token : Option Json := none

namespace RocketChat

/-- rocketchat.py lines 388-393, `auth_header`: the literal dictionary
`X-Auth-Token`, `X-User-Id`, `Content-type` (note the lower-case `t`) built
from the current session fields, with Python `None` rendered as `null`. -/
def auth_header (rc : RocketChat) : List (String × Json) :=
  [("X-Auth-Token", rc.auth_token.getD Json.null),
   ("X-User-Id", rc.user_id.getD Json.null),
   ("Content-type", Json.str "application/json")]

/-- The attribute `api_v1_path` read by `RocketChat._url` (rocketchat.py
line 396) and by the inner `APIPath._url` (line 88).  No statement in the
repository ever assigns it, neither in `__init__` nor as a class attribute,
so the Python attribute lookup finds nothing. -/
def api_v1_path (_ : RocketChat) : Option String := none

/-- rocketchat.py lines 395-396, `RocketChat._url`:
`self.url + self.api_v1_path + path`.  Reading the never-assigned
`api_v1_path` raises `AttributeError` before the concatenation happens. -/
def rcUrl (rc : RocketChat) (path : String) : Except PyError String :=
  match rc.api_v1_path with
  | none => Except.error (PyError.attributeError "api_v1_path")
  | some root => Except.ok (rc.url ++ root ++ path)

/-- rocketchat.py lines 398-404, `RocketChat.login(**kwargs)`.  The transport
`tr` stands for `requests.post(url, data=kwargs).json()`: it receives the
composed URL and the form data and yields the decoded JSON response.  The
source first composes `self._url("login")`, then posts, then checks
`j["status"] != "success"` (raising `Exception(j["message"])`), and finally
stores `j["data"]["userId"]` and `j["data"]["authToken"]`. -/
def login (rc : RocketChat) (kwargs : List (String × String))
    (tr : String → List (String × String) → Json) : Except PyError RocketChat :=
  match rc.rcUrl "login" with
  | Except.error e => Except.error e
  | Except.ok url =>
    let j := tr url kwargs
    match j.lookup "status" with
    | none => Except.error (PyError.keyError "status")
    | some st =>
      if st.eqStr "success" then
        match j.lookup "data" with
        | none => Except.error (PyError.keyError "data")
        | some d =>
          match d.lookup "userId" with
          | none => Except.error (PyError.keyError "userId")
          | some uid =>
            match d.lookup "authToken" with
            | none => Except.error (PyError.keyError "authToken")
            | some tok =>
              Except.ok { rc with user_id := some uid, auth_token := some tok }
      else
        match j.lookup "message" with
        | none => Except.error (PyError.keyError "message")
        | some m => Except.error (PyError.exceptionMsg m)

/-- rocketchat.py lines 382-386, `RocketChat.__init__(url, username,
password)`: stores the url, sets `user_id` and `auth_token` to `None`, and
calls `self.login()` with NO arguments, so the form data posted by `login`
is the empty mapping; the supplied `username` and `password` are never used. -/
def init (url : String) (username : String) (password : String)
    (tr : String → List (String × String) → Json) : Except PyError RocketChat :=
  let _ := username
  let _ := password
  let rc : RocketChat := { url := url }
  rc.login [] tr

end RocketChat

/-- The completed endpoint descriptor of apipath.py (lines 19-50):
`_api`, `_path`, `_method`, `_arg_endpoint`, `_result_key`, `_auth`,
`_api_root`, with the constructor defaults of the source. -/
structure APIPath where
  api : RocketChat
  path : String
  method : Option String := some "GET"
  arg_endpoint : Bool := false
  result_key : Option String := none
  auth : Bool := true
  api_root : String := "/api/v1/"

/-- The HTTP request handed to `requests.request` (apipath.py lines 82-84).
`params` holds the keyword arguments when they travel as query parameters,
`data` holds them when they travel as the JSON-encoded body (we keep the
mapping itself rather than its serialized text), and `headers` is present
exactly when the call attached headers. -/
structure Request where
  method : String
  url : String
  params : Option (List (String × Json))
  data : Option (List (String × Json))
  headers : Option (List (String × Json))

/-- The HTTP response: status code, raw text, and the result of `r.json()`
(`none` models a body that fails to decode). -/
structure Response where
  status : Nat
  text : String
  json : Option Json

namespace APIPath

/-- apipath.py lines 60-61, `APIPath._url`:
`self._api.url + self._api_root + self._path`. -/
def baseUrl (p : APIPath) : String :=
  p.api.url ++ p.api_root ++ p.path

/-- apipath.py lines 63-84, the request-building half of `APIPath.__call__`:
raise `ValueError` when `_method is None`; route the keyword arguments into
query parameters (GET) or the JSON body (otherwise); compose the URL from
`_url()`; when `_arg_endpoint` is set append `/` plus `args[0]` (an
unguarded indexing that raises `IndexError` on an empty tuple and silently
ignores any further positional arguments); attach `self._api.auth_header()`
exactly when `_auth` is set. -/
def buildRequest (p : APIPath) (args : List String)
    (kwargs : List (String × Json)) : Except PyError Request :=
  match p.method with
  | none => Except.error (PyError.valueError ("Not a valid endpoint: " ++ p.path))
  | some m =>
    let params := if m == "GET" then some kwargs else none
    let data := if m == "GET" then none else some kwargs
    let hdrs := if p.auth then some p.api.auth_header else none
    if p.arg_endpoint then
      match args with
      | [] => Except.error PyError.indexError
      | a :: _ =>
        Except.ok { method := m, url := p.baseUrl ++ "/" ++ a,
                    params := params, data := data, headers := hdrs }
    else
      Except.ok { method := m, url := p.baseUrl,
                  params := params, data := data, headers := hdrs }

/-- apipath.py lines 85-100, the response half of `APIPath.__call__`:
re-raise when `r.json()` fails; when the decoded object contains an
`error` key raise `RocketChatError(result["errorType"], result["error"])`
(Python evaluates `result["errorType"]` first, so a missing `errorType`
raises a bare `KeyError` before any `RocketChatError` is constructed); then
extract `result[self._result_key]` when a result key is set (an unguarded
lookup raising `KeyError` when absent); otherwise return the whole object. -/
def handleResponse (p : APIPath) (r : Response) : Except PyError Json :=
  match r.json with
  | none => Except.error PyError.jsonDecodeError
  | some result =>
    if (result.lookup "error").isSome then
      match result.lookup "errorType" with
      | none => Except.error (PyError.keyError "errorType")
      | some t =>
        match result.lookup "error" with
        | none => Except.error (PyError.keyError "error")
        | some e => Except.error (PyError.rocketChatError t e)
    else
      match p.result_key with
      | none => Except.ok result
      | some k =>
        match result.lookup k with
        | none => Except.error (PyError.keyError k)
        | some v => Except.ok v

/-- apipath.py `APIPath.__call__` end to end: build the request, exchange it
through the transport `tr` (`requests.request`), handle the response. -/
def call (p : APIPath) (args : List String) (kwargs : List (String × Json))
    (tr : Request → Response) : Except PyError Json :=
  match p.buildRequest args kwargs with
  | Except.error e => Except.error e
  | Except.ok req => p.handleResponse (tr req)

end APIPath

/-!
The descriptor tree of rocketchat.py.  The inner `APIPath` instances there
form a tree: the top-level ones are class attributes of `RocketChat`, the
nested ones are instance attributes of their parent descriptor.  Each node
carries `_api`, initially `None` (rocketchat.py line 47).  `__get__`
(lines 49-53) fires only on the top-level nodes: on the first access
through an instance it stores that instance in `self._api` and calls
`_propagate_api` (lines 72-85), which copies `self._api` into every
descendant; on every later access, through whatever instance, it returns
`self` unchanged.  Client instances are modelled by numeric identifiers,
and a tree node is a `Desc`: its `_api` field and its named children. -/

mutual
inductive Desc where
  | node : Option Nat → DescChildren → Desc
inductive DescChildren where
  | nil : DescChildren
  | cons : String → Desc → DescChildren → DescChildren
end

namespace Desc

/-- The `_api` field of a descriptor node. -/
def apiOf : Desc → Option Nat
  | .node a _ => a

end Desc

mutual
/-- Set `_api` to `v` on a node and, recursively, on all its descendants:
the effect of `attr._api = self._api; attr._propagate_api()` (rocketchat.py
lines 82-85) performed from a node whose own `_api` was just set to `v`. -/
def Desc.setAll (v : Option Nat) : Desc → Desc
  | .node _ cs => .node v (DescChildren.setAllC v cs)

/-- `setAll` mapped over a child list. -/
def DescChildren.setAllC (v : Option Nat) : DescChildren → DescChildren
  | .nil => .nil
  | .cons n d rest => .cons n (d.setAll v) (DescChildren.setAllC v rest)
end

mutual
/-- Every node of the tree has `_api = v`. -/
def Desc.allApi (v : Option Nat) : Desc → Bool
  | .node a cs => (a == v) && DescChildren.allApiC v cs

/-- `allApi` over a child list. -/
def DescChildren.allApiC (v : Option Nat) : DescChildren → Bool
  | .nil => true
  | .cons _ d rest => d.allApi v && DescChildren.allApiC v rest
end

namespace Desc

/-- rocketchat.py lines 49-53, `APIPath.__get__(self, obj, objtype)` on a
top-level descriptor, accessed through the client instance `obj`: when
`self._api is None`, store `obj` and propagate it to every descendant;
otherwise leave everything as it is.  Either way the descriptor returned is
`self` (the same object on every access); the result here is the updated
state of that shared object. -/
def getAccess (d : Desc) (obj : Nat) : Desc :=
  match d.apiOf with
  | none => d.setAll (some obj)
  | some _ => d

/-- Plain attribute lookup of a named child descriptor (nested `APIPath`
instances are ordinary instance attributes, so no `__get__` fires on them). -/
def child (d : Desc) (n : String) : Option Desc :=
  match d with
  | .node _ cs => findChild n cs
where
  findChild (n : String) : DescChildren → Option Desc
    | .nil => none
    | .cons m d rest => if m == n then some d else findChild n rest

end Desc

/-! Concrete fixtures used by the witnesses and counterexamples. -/

/-- A session whose base URL is `http://s` and which has not logged in. -/
def baseSession : RocketChat := { url := "http://s" }

/-- The unauthenticated service-info descriptor of the registry
(rocketchat.py line 131): path `info`, result key `info`, `auth=False`,
`api_root="/api/"`, default GET verb. -/
def infoPath : APIPath :=
  { api := baseSession, path := "info", result_key := some "info",
    auth := false, api_root := "/api/" }

/-- The request `infoPath.buildRequest [] []` produces. -/
def infoReq : Request :=
  { method := "GET", url := "http://s/api/info", params := some [],
    data := none, headers := none }

/-- C1: for every callable descriptor, the URL composed for the request is
baseURL ++ apiRoot ++ relativeUrlPath, where apiRoot is the descriptor
field defaulting to "/api/v1/" and carrying the declared override
otherwise (the service-info descriptor declares "/api/").  Stated for
descriptors without a positional path argument, whose URL gains no suffix;
as implemented by APIPath in apipath.py, the only dispatcher variant in the
repository that composes a request URL from the stored api root. -/
theorem c1_url_composition (p : APIPath) (args : List String)
    (kwargs : List (String × Json)) (req : Request)
    (h : p.buildRequest args kwargs = Except.ok req)
    (hne : p.arg_endpoint = false) :
    req.url = p.api.url ++ p.api_root ++ p.path := by
  cases hm : p.method with
  | none => simp [APIPath.buildRequest, hm] at h
  | some m =>
    simp [APIPath.buildRequest, hm, hne] at h
    subst h
    rfl

/-- C1 witness: the service-info descriptor on base URL http://s issues its
request to http://s/api/info, the declared "/api/" root override applied. -/
theorem c1_url_composition_witness :
    infoPath.buildRequest [] [] = Except.ok infoReq ∧
    infoReq.url = infoPath.api.url ++ infoPath.api_root ++ infoPath.path :=
  ⟨rfl, c1_url_composition infoPath [] [] infoReq rfl rfl⟩

/-- C9: the request built for a call carries the current auth header of the
owning session exactly when the descriptor requires authentication, and no
headers at all otherwise (apipath.py lines 78-80). -/
theorem c9_auth_header_iff (p : APIPath) (args : List String)
    (kwargs : List (String × Json)) (req : Request)
    (h : p.buildRequest args kwargs = Except.ok req) :
    req.headers = if p.auth then some p.api.auth_header else none := by
  cases hm : p.method with
  | none => simp [APIPath.buildRequest, hm] at h
  | some m =>
    cases ha : p.arg_endpoint with
    | false =>
      simp [APIPath.buildRequest, hm, ha] at h
      subst h
      rfl
    | true =>
      cases args with
      | nil => simp [APIPath.buildRequest, hm, ha] at h
      | cons a rest =>
        simp [APIPath.buildRequest, hm, ha] at h
        subst h
        rfl

/-- C9 witness: the service-info descriptor is declared auth=False, and the
request built for it carries no headers. -/
theorem c9_auth_header_iff_witness :
    infoReq.headers = if infoPath.auth then some infoPath.api.auth_header else none :=
  c9_auth_header_iff infoPath [] [] infoReq rfl

/-- A POST descriptor with a result key, for the error-path witnesses. -/
def createPath : APIPath :=
  { api := baseSession, path := "channels.create", method := some "POST",
    result_key := some "channel" }

/-- The request `createPath.buildRequest [] []` produces. -/
def createReq : Request :=
  { method := "POST", url := "http://s/api/v1/channels.create",
    params := none, data := some [], headers := some baseSession.auth_header }

/-- C6: whenever the decoded response object holds both an error key and an
errorType key, the call raises RocketChatError carrying that errorType and
that error message, whatever the HTTP status code, whatever other keys are
present, and whatever result key the descriptor declares: the error branch
runs before result-key extraction and before returning the object
(apipath.py lines 95-96). -/
theorem c6_error_priority (p : APIPath) (args : List String)
    (kwargs : List (String × Json)) (req : Request) (tr : Request → Response)
    (j t e : Json)
    (hreq : p.buildRequest args kwargs = Except.ok req)
    (hjson : (tr req).json = some j)
    (herr : j.lookup "error" = some e)
    (htyp : j.lookup "errorType" = some t) :
    p.call args kwargs tr = Except.error (PyError.rocketChatError t e) := by
  unfold APIPath.call
  rw [hreq]
  simp [APIPath.handleResponse, hjson, herr, htyp]

/-- C6 witness: a status-500 response carrying error X, errorType Y and an
extra channel key, through a descriptor with result key channel, raises
RocketChatError Y X. -/
theorem c6_error_priority_witness :
    createPath.call [] []
      (fun _ => { status := 500, text := "",
                  json := some (Json.obj
                    [("error", Json.str "X"), ("errorType", Json.str "Y"),
                     ("channel", Json.null)]) })
      = Except.error (PyError.rocketChatError (Json.str "Y") (Json.str "X")) :=
  c6_error_priority createPath [] [] createReq _
    (Json.obj [("error", Json.str "X"), ("errorType", Json.str "Y"),
               ("channel", Json.null)])
    (Json.str "Y") (Json.str "X") rfl rfl rfl rfl

/-- C10: when the decoded response object holds an error key but no
errorType key, the call does not raise RocketChatError: evaluating
result["errorType"] for the RocketChatError constructor raises a bare
KeyError first (apipath.py line 96, Python evaluates the constructor
arguments left to right). -/
theorem c10_missing_errortype (p : APIPath) (args : List String)
    (kwargs : List (String × Json)) (req : Request) (tr : Request → Response)
    (j e : Json)
    (hreq : p.buildRequest args kwargs = Except.ok req)
    (hjson : (tr req).json = some j)
    (herr : j.lookup "error" = some e)
    (htyp : j.lookup "errorType" = none) :
    p.call args kwargs tr = Except.error (PyError.keyError "errorType") := by
  unfold APIPath.call
  rw [hreq]
  simp [APIPath.handleResponse, hjson, herr, htyp]

/-- C10 witness: a response of just an error key raises KeyError on
errorType, not RocketChatError. -/
theorem c10_missing_errortype_witness :
    createPath.call [] []
      (fun _ => { status := 400, text := "",
                  json := some (Json.obj [("error", Json.str "X")]) })
      = Except.error (PyError.keyError "errorType") :=
  c10_missing_errortype createPath [] [] createReq _
    (Json.obj [("error", Json.str "X")]) (Json.str "X") rfl rfl rfl rfl

/-- C7 (amended): for a decoded response object without an error key, a
descriptor with a result key returns the value stored at that key and
raises a bare KeyError when the key is absent (the unguarded
result[self._result_key] of apipath.py line 99, not a dedicated
MalformedResponseError); a descriptor without a result key returns the
whole decoded object. -/
theorem c7_result_extraction (p : APIPath) (r : Response) (j : Json)
    (hjson : r.json = some j) (hne : j.lookup "error" = none) :
    p.handleResponse r =
      (match p.result_key with
       | none => Except.ok j
       | some k =>
         match j.lookup k with
         | some v => Except.ok v
         | none => Except.error (PyError.keyError k)) := by
  cases hk : p.result_key with
  | none => simp [APIPath.handleResponse, hjson, hne, hk]
  | some k =>
    cases hv : j.lookup k with
    | none => simp [APIPath.handleResponse, hjson, hne, hk, hv]
    | some v => simp [APIPath.handleResponse, hjson, hne, hk, hv]

/-- A GET descriptor with result key success, for the C7 round trip. -/
def successKeyPath : APIPath :=
  { api := baseSession, path := "channels.archive", result_key := some "success" }

/-- C7 witness: the round trip of the claim — a response of success true
through a descriptor with result key success returns the boolean true, not
the wrapping object. -/
theorem c7_result_extraction_witness :
    successKeyPath.handleResponse
      { status := 200, text := "", json := some (Json.obj [("success", Json.bool true)]) }
      = Except.ok (Json.bool true) :=
  c7_result_extraction successKeyPath
    { status := 200, text := "", json := some (Json.obj [("success", Json.bool true)]) }
    (Json.obj [("success", Json.bool true)]) rfl rfl

/-- C7 counterexample: when the declared result key is absent from an
otherwise successful response, the call fails with a bare KeyError, which
is not the MalformedResponseError the claim names. -/
theorem c7_counterexample :
    successKeyPath.handleResponse
      { status := 200, text := "", json := some (Json.obj [("ok", Json.bool true)]) }
      = Except.error (PyError.keyError "success") ∧
    (PyError.keyError "success").isMalformedResponse = false :=
  ⟨rfl, rfl⟩

/-- The settings.get descriptor (rocketchat.py line 363): literal path
settings, GET verb, arg_endpoint set. -/
def settingsGet : APIPath :=
  { api := baseSession, path := "settings", arg_endpoint := true }

/-- The request `settingsGet.buildRequest ["SiteName"] []` produces. -/
def settingsReq : Request :=
  { method := "GET", url := "http://s/api/v1/settings/SiteName",
    params := some [], data := none, headers := some baseSession.auth_header }

/-- C8 (amended): building the request fails exactly when the descriptor is
namespace-only (verb unset, a ValueError) or when it accepts a path
argument and no positional argument is supplied (the unguarded args[0], an
IndexError); when at least one positional argument is supplied to a
path-argument descriptor, slash plus the first argument is appended to the
URL and any further positional arguments are silently ignored, raising
nothing. -/
theorem c8_arity (p : APIPath) (args : List String)
    (kwargs : List (String × Json)) :
    ((∃ e, p.buildRequest args kwargs = Except.error e) ↔
      (p.method = none ∨ (p.arg_endpoint = true ∧ args = []))) ∧
    (∀ a rest req, args = a :: rest → p.arg_endpoint = true →
      p.buildRequest args kwargs = Except.ok req →
      req.url = p.baseUrl ++ "/" ++ a) := by
  constructor
  · cases hm : p.method with
    | none => simp [APIPath.buildRequest, hm]
    | some m =>
      cases ha : p.arg_endpoint with
      | false => simp [APIPath.buildRequest, hm, ha]
      | true =>
        cases args with
        | nil => simp [APIPath.buildRequest, hm, ha]
        | cons a rest => simp [APIPath.buildRequest, hm, ha]
  · intro a rest req hargs hend h
    subst hargs
    cases hm : p.method with
    | none => simp [APIPath.buildRequest, hm] at h
    | some m =>
      simp [APIPath.buildRequest, hm, hend] at h
      subst h
      rfl

/-- C8 witness: calling settings.get with the single positional argument
SiteName appends /SiteName to the composed URL and raises nothing. -/
theorem c8_arity_witness :
    settingsGet.buildRequest ["SiteName"] [] = Except.ok settingsReq ∧
    settingsReq.url = settingsGet.baseUrl ++ "/" ++ "SiteName" :=
  ⟨rfl, (c8_arity settingsGet ["SiteName"] []).2 "SiteName" [] settingsReq rfl rfl rfl⟩

/-- C8 counterexample: the claim demands an error when more than one
positional argument is supplied to a path-argument descriptor, but calling
settings.get with two positional arguments completes normally: the first
argument is appended, the second ignored, and the decoded response object
is returned. -/
theorem c8_counterexample :
    settingsGet.call ["SiteName", "extra"] []
      (fun _ => { status := 200, text := "",
                  json := some (Json.obj [("ok", Json.bool true)]) })
      = Except.ok (Json.obj [("ok", Json.bool true)]) := rfl

mutual
/-- After propagation with value v, every node of the subtree carries v. -/
theorem Desc.allApi_setAll (v : Option Nat) :
    (d : Desc) → (d.setAll v).allApi v = true
  | .node _ cs => by
    simp [Desc.setAll, Desc.allApi, DescChildren.allApiC_setAllC v cs]

/-- List version of `Desc.allApi_setAll`. -/
theorem DescChildren.allApiC_setAllC (v : Option Nat) :
    (cs : DescChildren) → DescChildren.allApiC v (DescChildren.setAllC v cs) = true
  | .nil => rfl
  | .cons _ d rest => by
    simp [DescChildren.setAllC, DescChildren.allApiC,
          Desc.allApi_setAll v d, DescChildren.allApiC_setAllC v rest]
end

/-- C5 (amended): accessing a top-level descriptor again, through any
client, returns it in the state the first access left it in (the same
shared object on every access), and on the first access, through client c,
every descriptor of its subtree comes to reference c.  The binding is to
the FIRST client that touches the tree: rocketchat.py line 50 only stores
the accessing instance when `_api is None`, so a descriptor reached later
through a different client instance keeps the first client as its session
reference. -/
theorem c5_descriptor_binding (d : Desc) (c cNext : Nat) :
    ((d.getAccess c).getAccess cNext = d.getAccess c) ∧
    (d.apiOf = none → (d.getAccess c).allApi (some c) = true) := by
  constructor
  · cases d with
    | node a cs =>
      cases a with
      | none => simp [Desc.getAccess, Desc.apiOf, Desc.setAll]
      | some x => simp [Desc.getAccess, Desc.apiOf]
  · intro h
    cases d with
    | node a cs =>
      cases a with
      | none => simpa [Desc.getAccess, Desc.apiOf] using Desc.allApi_setAll (some c) (.node none cs)
      | some x => simp [Desc.apiOf] at h

/-- A three-level descriptor tree shaped like channels -> list -> joined,
before any access (every `_api` is None, rocketchat.py line 47). -/
def chanTree : Desc :=
  .node none (.cons "list" (.node none (.cons "joined" (.node none .nil) .nil)) .nil)

/-- C5 witness: after client 1 touches the tree, a later access through
client 2 changes nothing, and the whole subtree references client 1. -/
theorem c5_descriptor_binding_witness :
    ((chanTree.getAccess 1).getAccess 2 = chanTree.getAccess 1) ∧
    ((chanTree.getAccess 1).allApi (some 1) = true) :=
  ⟨(c5_descriptor_binding chanTree 1 2).1,
   (c5_descriptor_binding chanTree 1 2).2 rfl⟩

/-- C5 counterexample: the claim says a descriptor resolved through a
client references, at call time, the client it was reached through, even
with several client instances.  Reached through client 2 after client 1
already touched the tree, the child and grandchild descriptors still
reference client 1, not client 2, at every depth. -/
theorem c5_counterexample :
    ((((chanTree.getAccess 1).getAccess 2).child "list").map Desc.apiOf
        = some (some 1)) ∧
    (((((chanTree.getAccess 1).getAccess 2).child "list").bind
        (fun d => d.child "joined")).map Desc.apiOf = some (some 1)) ∧
    (1 : Nat) ≠ 2 :=
  ⟨rfl, rfl, by decide⟩

/-- A stub transport whose decoded response is the success document of the
login scenario: status success, data.userId u1, data.authToken t1. -/
def successLoginTr : String → List (String × String) → Json := fun _ _ =>
  Json.obj [("status", Json.str "success"),
            ("data", Json.obj [("userId", Json.str "u1"),
                               ("authToken", Json.str "t1")])]

/-- A stub transport whose decoded response is the failure document of the
login scenario: status error, message bad credentials. -/
def failLoginTr : String → List (String × String) → Json := fun _ _ =>
  Json.obj [("status", Json.str "error"),
            ("message", Json.str "bad credentials")]

/-- C2 evaluation: login against the success stub never reaches the stub —
composing the login URL reads the never-assigned attribute api_v1_path and
raises AttributeError, so the session fields are not set.  And even on a
session that already holds the scenario token and user id, auth_header
yields the key Content-type (lower-case t), not the Content-Type of the
claim. -/
theorem c2_login_success_eval :
    (({ url := "http://s" } : RocketChat).login
        [("username", "alice"), ("password", "secret")] successLoginTr
      = Except.error (PyError.attributeError "api_v1_path")) ∧
    (({ url := "http://s", user_id := some (Json.str "u1"),
        auth_token := some (Json.str "t1") } : RocketChat).auth_header
      = [("X-Auth-Token", Json.str "t1"), ("X-User-Id", Json.str "u1"),
         ("Content-type", Json.str "application/json")]) :=
  ⟨rfl, rfl⟩

/-- C3 evaluation: constructing the client calls login with an empty
keyword mapping — the supplied username and password are dropped on the
floor — and the login URL composition raises AttributeError on the
never-assigned api_v1_path, so no form-encoded POST carrying the
credentials is ever issued. -/
theorem c3_construction_eval :
    RocketChat.init "http://s" "alice" "secret" successLoginTr
      = Except.error (PyError.attributeError "api_v1_path") := rfl

/-- C4 evaluation: login against the bad-credentials stub also fails on the
never-assigned api_v1_path before the request is posted, so the
status-check branch that would raise the error carrying the service
message is never reached. -/
theorem c4_login_failure_eval :
    ({ url := "http://s" } : RocketChat).login
        [("username", "alice"), ("password", "secret")] failLoginTr
      = Except.error (PyError.attributeError "api_v1_path") := rfl
